import Mathlib

/-!
# Shallow embedding of the 1688 image-search batch service

This file embeds, in Lean 4, the parts of the repository that the verified
properties talk about:

* `src/lib/proxy.py` — the proxy pool (`ProxyPool.get_proxy`,
  `ProxyPool.get_proxies`), its process-wide fetch lock and rate limiting;
* `src/lib/ali1688/search.py` — the retry loop of `fetch_product_links_async`;
* `src/api.py` — `search_products`, the per-item worker `process_single`, the
  batch orchestrator `process_email_batch_task`, the submission endpoint
  `batch_search_with_email`, and the task store.

External effects (HTTP requests to the proxy vendor, the Playwright page
render, the image download, the SMTP delivery) are modelled as oracles passed
in explicitly: each oracle value fixes one concrete behaviour of the outside
world, and theorems quantify over all of them.  Wall-clock time is modelled as
a natural number of milliseconds.  Python exceptions raised by an external
call are modelled as `Except.error` values of the corresponding oracle.
-/

namespace Ali1688

/-- A matched product record (`Product` in src/api.py). -/
structure Product where
  title : String
  url : String
  offer_id : String
deriving DecidableEq, Repr

/-- The fields of the 1688 upload response that `search_products` inspects
(src/api.py `upload_image_to_1688` / `search_products`): the `ret[0]` marker
and `data.imageId`. -/
structure UploadData where
  ret : String
  imageId : String
deriving DecidableEq, Repr

/-- `SearchResponse` in src/api.py. -/
structure SearchResponse where
  success : Bool
  image_id : Option String
  search_url : Option String
  products : List Product
  error : Option String
deriving DecidableEq, Repr

/-- `get_search_url` in src/lib/ali1688/search.py. -/
def get_search_url (image_id : String) : String :=
  "https://s.1688.com/youyuan/index.htm?tab=imageSearch&imageId=" ++ image_id
    ++ "&imageIdList=" ++ image_id

/-- The attempt loop of `fetch_product_links_async`
(src/lib/ali1688/search.py, lines 50-101).  `oracle k` is the outcome of the
k-th Playwright page render: the rendered `window.offerList` on success, or
the raised exception's message on failure.  A successful render returns the
list truncated to `limit` (the `slice(0, limit)` in the injected JS); a raised
exception falls through to the next attempt; when all attempts are exhausted
the initial empty `products` list is returned.  `remaining` counts how many
iterations of `for attempt in range(retry_count + 1)` are left. -/
def fetchLoop (oracle : Nat → Except String (List Product)) (limit : Nat) :
    Nat → Nat → List Product
  | _, 0 => []
  | attempt, remaining + 1 =>
    match oracle attempt with
    | .ok ps => ps.take limit
    | .error _ => fetchLoop oracle limit (attempt + 1) remaining

/-- `fetch_product_links_async` (src/lib/ali1688/search.py): runs
`retry_count + 1` attempts starting at attempt 0. -/
def fetch_product_links_async (oracle : Nat → Except String (List Product))
    (limit : Nat) (retry_count : Nat) : List Product :=
  fetchLoop oracle limit 0 (retry_count + 1)

/-- `search_products` (src/api.py, lines 86-113).  `upload` is the outcome of
`upload_image_to_1688` (its parsed JSON, or the raised exception, which the
surrounding `try` turns into a failure response).  The source calls
`fetch_product_links_async` with its default `retry_count = 2`; the bound is
kept as an explicit argument here so that the lookup retry bound is visible,
and every call site of the batch pipeline instantiates it with 2. -/
def search_products (upload : Except String UploadData)
    (oracle : Nat → Except String (List Product)) (limit : Nat)
    (retry_count : Nat) : SearchResponse :=
  match upload with
  | .error e => ⟨false, none, none, [], some e⟩
  | .ok d =>
    if d.ret ≠ "SUCCESS::调用成功" then
      ⟨false, none, none, [], some "上传失败"⟩
    else if d.imageId = "" then
      ⟨false, none, none, [], some "未获取到 imageId"⟩
    else
      ⟨true, some d.imageId, some (get_search_url d.imageId),
        fetch_product_links_async oracle limit retry_count, none⟩

/-- The per-item result dictionary built by `process_single`
(src/api.py, lines 248-280). -/
structure ItemResult where
  image_url : String
  index : Nat
  success : Bool
  products : List Product
  error : Option String
deriving DecidableEq, Repr

/-- The external-world behaviour one `process_single` run observes:
the outcome of `requests.get` + temp-file write (download), the outcome of
`upload_image_to_1688`, and the outcome of each Playwright render attempt.
The pre-assigned proxy only changes which network route these calls take, so
it is absorbed into the oracles. -/
structure ItemWorld where
  download : Except String Unit
  upload : Except String UploadData
  fetch : Nat → Except String (List Product)

/-- `process_single` (src/api.py, lines 248-280): download the image (any
raised exception becomes a failure record), then run `search_products` and
copy its `success`/`products`/`error` fields next to the item's `image_url`
and original `index`.  The source fixes the lookup retry bound to the default
2 of `fetch_product_links_async`; it is an explicit argument here (see
`search_products`). -/
def process_single (w : ItemWorld) (limit : Nat) (retry_count : Nat)
    (url : String) (index : Nat) : ItemResult :=
  match w.download with
  | .error e => ⟨url, index, false, [], some e⟩
  | .ok _ =>
    let sr := search_products w.upload w.fetch limit retry_count
    ⟨url, index, sr.success, sr.products, sr.error⟩

/-! ## Proxy pool (src/lib/proxy.py) -/

/-- Credentials from src/config/proxy_config.py. -/
def PROXY_USERNAME : String := "xiaofangcode"

/-- Credentials from src/config/proxy_config.py. -/
def PROXY_PASSWORD : String := "Frx379520."

/-- One entry of the vendor response's `data` array. -/
structure RawProxy where
  proxy_ip : String
  server : String
  area : String
  isp : String
  deadline : String
deriving DecidableEq, Repr

/-- `ProxyInfo` (src/lib/proxy.py). -/
structure ProxyInfo where
  proxy_ip : String
  server : String
  area : String
  isp : String
  deadline : String
  username : String
  password : String
deriving DecidableEq, Repr

/-- How both `get_proxy` and `get_proxies` build a `ProxyInfo` from one vendor
record (src/lib/proxy.py). -/
def mkProxyInfo (r : RawProxy) : ProxyInfo :=
  ⟨r.proxy_ip, r.server, r.area, r.isp, r.deadline, PROXY_USERNAME, PROXY_PASSWORD⟩

/-- Outcome of one `requests.get` against the vendor: either the request
itself raised (network error / timeout, before `_last_fetch_time` is
updated), or a parsed JSON reply with a status `code` and a `data` array. -/
inductive VendorOutcome
  | netError (e : String)
  | reply (code : String) (data : List RawProxy)
deriving DecidableEq, Repr

/-- External behaviour of the vendor endpoint during one pool call:
`vendor k requested` is the outcome of the k-th attempt's HTTP request (with
`requested` the `num` parameter sent), `callMs k` its wall-clock duration in
milliseconds. -/
structure FetchEnv where
  vendor : Nat → Nat → VendorOutcome
  callMs : Nat → Nat

/-- Mutable state of a `ProxyPool` instance (src/lib/proxy.py): the
`enabled` flag, `_last_fetch_time` (ms), and `_current_proxy`. -/
structure PoolState where
  enabled : Bool
  lastFetchTime : Nat
  currentProxy : Option ProxyInfo
deriving DecidableEq, Repr

/-- Observable events of one pool call: rate-limit / backoff sleeps, vendor
network calls (with the `num` parameter sent), and operations on the
process-wide `_proxy_fetch_lock`. -/
inductive PEvent
  | sleep (ms : Nat)
  | netCall (requested : Nat)
  | lockAcquire
  | lockRelease
deriving DecidableEq, Repr

/-- The 1.5 s minimum spacing both acquisition loops enforce between vendor
calls (`min_interval = 1.5` in src/lib/proxy.py), in milliseconds. -/
def minFetchIntervalMs : Nat := 1500

/-- The retry loop of `ProxyPool.get_proxies` (src/lib/proxy.py,
lines 175-246), one recursive step per iteration of
`for attempt in range(max_retries)`; `remaining` counts the iterations left.
Each iteration: sleep out the remainder of the 1.5 s spacing since
`_last_fetch_time`, perform the vendor call (on a raised request
`_last_fetch_time` is not updated; otherwise it is set to the time the call
returned), then dispatch on the reply: a non-`SUCCESS` code retries after a
linear backoff `(attempt+1) * 2` s when transient and attempts remain,
otherwise returns `[]`; an empty `data` array retries after 2 s or returns
`[]`; otherwise the records are returned.  Exhausting the loop returns `[]`. -/
def getProxiesLoop (env : FetchEnv) (requested : Nat) (maxRetries : Nat) :
    Nat → Nat → PoolState → Nat → List PEvent →
      List ProxyInfo × PoolState × List PEvent
  | _, 0, st, _, evs => ([], st, evs)
  | attempt, remaining + 1, st, now, evs =>
    let elapsed := now - st.lastFetchTime
    let rateEvs := if elapsed < minFetchIntervalMs then
        [PEvent.sleep (minFetchIntervalMs - elapsed)] else []
    let now1 := if elapsed < minFetchIntervalMs then
        now + (minFetchIntervalMs - elapsed) else now
    match env.vendor attempt requested with
    | .netError _ =>
      let now2 := now1 + env.callMs attempt
      let evs1 := evs ++ rateEvs ++ [PEvent.netCall requested]
      if attempt + 1 < maxRetries then
        getProxiesLoop env requested maxRetries (attempt + 1) remaining st
          (now2 + 2000) (evs1 ++ [PEvent.sleep 2000])
      else ([], st, evs1)
    | .reply code data =>
      let now2 := now1 + env.callMs attempt
      let st1 : PoolState := { st with lastFetchTime := now2 }
      let evs1 := evs ++ rateEvs ++ [PEvent.netCall requested]
      if code ≠ "SUCCESS" then
        if (code = "FAILED_OPERATION" ∨ code = "NO_RESOURCE_FOUND")
            ∧ attempt + 1 < maxRetries then
          getProxiesLoop env requested maxRetries (attempt + 1) remaining st1
            (now2 + (attempt + 1) * 2000) (evs1 ++ [PEvent.sleep ((attempt + 1) * 2000)])
        else ([], st1, evs1)
      else
        match data with
        | [] =>
          if attempt + 1 < maxRetries then
            getProxiesLoop env requested maxRetries (attempt + 1) remaining st1
              (now2 + 2000) (evs1 ++ [PEvent.sleep 2000])
          else ([], st1, evs1)
        | _ :: _ => (data.map mkProxyInfo, st1, evs1)

/-- `ProxyPool.get_proxies` (src/lib/proxy.py, lines 157-248): the
`enabled` guard, the `num <= 0` guard, then the retry loop with the request
size capped at 50 (`min(num, 50)`).  `num` is an integer, as in Python.
Returns the proxy list, the updated pool state, and the event trace. -/
def ProxyPool.get_proxies (env : FetchEnv) (st : PoolState) (now : Nat)
    (num : Int) (maxRetries : Nat) : List ProxyInfo × PoolState × List PEvent :=
  if !st.enabled then ([], st, [])
  else if num ≤ 0 then ([], st, [])
  else getProxiesLoop env (min num.toNat 50) maxRetries 0 maxRetries st now []

/-- The retry loop of `ProxyPool.get_proxy` (src/lib/proxy.py,
lines 93-155), which runs while `_proxy_fetch_lock` is held.  Identical in
structure to `getProxiesLoop` but requesting `num = 1`, and on success it
also stores the proxy in `_current_proxy` and returns just that record. -/
def getProxyLoop (env : FetchEnv) (maxRetries : Nat) :
    Nat → Nat → PoolState → Nat → List PEvent →
      Option ProxyInfo × PoolState × List PEvent
  | _, 0, st, _, evs => (none, st, evs)
  | attempt, remaining + 1, st, now, evs =>
    let elapsed := now - st.lastFetchTime
    let rateEvs := if elapsed < minFetchIntervalMs then
        [PEvent.sleep (minFetchIntervalMs - elapsed)] else []
    let now1 := if elapsed < minFetchIntervalMs then
        now + (minFetchIntervalMs - elapsed) else now
    match env.vendor attempt 1 with
    | .netError _ =>
      let now2 := now1 + env.callMs attempt
      let evs1 := evs ++ rateEvs ++ [PEvent.netCall 1]
      if attempt + 1 < maxRetries then
        getProxyLoop env maxRetries (attempt + 1) remaining st
          (now2 + 2000) (evs1 ++ [PEvent.sleep 2000])
      else (none, st, evs1)
    | .reply code data =>
      let now2 := now1 + env.callMs attempt
      let st1 : PoolState := { st with lastFetchTime := now2 }
      let evs1 := evs ++ rateEvs ++ [PEvent.netCall 1]
      if code ≠ "SUCCESS" then
        if (code = "FAILED_OPERATION" ∨ code = "NO_RESOURCE_FOUND")
            ∧ attempt + 1 < maxRetries then
          getProxyLoop env maxRetries (attempt + 1) remaining st1
            (now2 + (attempt + 1) * 2000) (evs1 ++ [PEvent.sleep ((attempt + 1) * 2000)])
        else (none, st1, evs1)
      else
        match data with
        | [] =>
          if attempt + 1 < maxRetries then
            getProxyLoop env maxRetries (attempt + 1) remaining st1
              (now2 + 2000) (evs1 ++ [PEvent.sleep 2000])
          else (none, st1, evs1)
        | r :: _ =>
          (some (mkProxyInfo r),
            { st1 with currentProxy := some (mkProxyInfo r) }, evs1)

/-- `ProxyPool.get_proxy` (src/lib/proxy.py, lines 66-155): the `enabled`
guard runs first; only then is `_proxy_fetch_lock` acquired, the retry loop
run, and the lock released.  `force_new` is accepted and ignored, as in the
source ("已废弃，始终获取新 IP"). -/
def ProxyPool.get_proxy (env : FetchEnv) (st : PoolState) (now : Nat)
    (force_new : Bool) (maxRetries : Nat) :
    Option ProxyInfo × PoolState × List PEvent :=
  if !st.enabled then (none, st, [])
  else
    let r := getProxyLoop env maxRetries 0 maxRetries st now [PEvent.lockAcquire]
    (r.1, r.2.1, r.2.2 ++ [PEvent.lockRelease])

/-! ## Interleaving model for the process-wide fetch lock

`_proxy_fetch_lock` (src/lib/proxy.py, line 21) is documented as making
*every* proxy acquisition serial.  To reason about what can overlap, each
acquisition function is abstracted to the sequence of lock operations and
network-call boundaries it performs, and two threads running such sequences
are interleaved by an explicit scheduler. -/

/-- Atomic steps of an acquisition call that matter for mutual exclusion. -/
inductive LockAction
  | lockAcquire
  | lockRelease
  | netBegin
  | netEnd
deriving DecidableEq, Repr

/-- Lock/network skeleton of `ProxyPool.get_proxy` (src/lib/proxy.py,
lines 88-155): the vendor call happens strictly inside
`with _proxy_fetch_lock`. -/
def getProxyActions : List LockAction :=
  [.lockAcquire, .netBegin, .netEnd, .lockRelease]

/-- Lock/network skeleton of `ProxyPool.get_proxies` (src/lib/proxy.py,
lines 157-248): the function body never mentions `_proxy_fetch_lock`, so its
vendor call runs without the lock. -/
def getProxiesActions : List LockAction :=
  [.netBegin, .netEnd]

/-- Two threads, each about to run a list of `LockAction`s, the current
holder of `_proxy_fetch_lock` (`false` = thread 0, `true` = thread 1), and
whether each thread is currently inside a vendor network call. -/
structure TwoThreads where
  prog0 : List LockAction
  prog1 : List LockAction
  holder : Option Bool
  inNet0 : Bool
  inNet1 : Bool
deriving DecidableEq, Repr

/-- Run thread `t`'s next action, if it has one and the action is enabled
(the lock can only be acquired when free and released by its holder). -/
def stepThread (s : TwoThreads) (t : Bool) : Option TwoThreads :=
  match (if t then s.prog1 else s.prog0) with
  | [] => none
  | a :: rest =>
    let s1 := if t then { s with prog1 := rest } else { s with prog0 := rest }
    match a with
    | .lockAcquire =>
      match s.holder with
      | none => some { s1 with holder := some t }
      | some _ => none
    | .lockRelease =>
      if s.holder = some t then some { s1 with holder := none } else none
    | .netBegin =>
      some (if t then { s1 with inNet1 := true } else { s1 with inNet0 := true })
    | .netEnd =>
      some (if t then { s1 with inNet1 := false } else { s1 with inNet0 := false })

/-- Both threads are in the middle of a vendor network call at once. -/
def bothInNet (s : TwoThreads) : Bool :=
  s.inNet0 && s.inNet1

/-- Does running the given schedule (a list of thread choices) from `s` pass
through a state where both threads' network calls are in flight at once?
A schedule that picks a blocked or finished thread stops the run. -/
def overlapReached (s : TwoThreads) : List Bool → Bool
  | [] => bothInNet s
  | t :: ts =>
    bothInNet s ||
      (match stepThread s t with
       | none => false
       | some s1 => overlapReached s1 ts)

/-- Initial state: both programs ready, lock free, nobody mid-call. -/
def initialTwo (p0 p1 : List LockAction) : TwoThreads :=
  ⟨p0, p1, none, false, false⟩

/-! ## Batch orchestration (src/api.py) -/

/-- The values `task["status"]` takes (src/api.py): `pending` at creation,
`processing` once the background task starts, and the two terminal strings
`completed` / `email_failed` (the "degraded" state of the design). -/
inductive TaskStatus
  | pending
  | processing
  | completed
  | email_failed
deriving DecidableEq, Repr

/-- Position of a status along the forward-only lifecycle. -/
def TaskStatus.rank : TaskStatus → Nat
  | .pending => 0
  | .processing => 1
  | .completed => 2
  | .email_failed => 2

/-- The terminal statuses. -/
def TaskStatus.isTerminal : TaskStatus → Bool
  | .completed => true
  | .email_failed => true
  | _ => false

/-- One entry of `tasks_store` (src/api.py, `batch_search_with_email`).
`duration` is `none` until the summary is recorded, matching
`task.get("duration")` before the key exists. -/
structure BatchTask where
  task_id : String
  status : TaskStatus
  total : Nat
  completed : Nat
  success_count : Nat
  fail_count : Nat
  email : String
  created_at : String
  message : String
  duration : Option Nat
deriving DecidableEq, Repr

/-- The task record created at submission (src/api.py, lines 418-430). -/
def mkBatchTask (tid : String) (total : Nat) (email created : String) : BatchTask :=
  ⟨tid, .pending, total, 0, 0, 0, email, created, "", none⟩

/-- Snapshots of the task record while the item workers run: the k-th
completion executes `task["completed"] += 1`, so after it the counter reads
`base + k + 1` (src/api.py, lines 275-277).  The increments are identical
whatever order the items finish in, so the snapshot list does not depend on
the completion order. -/
def progressStates (p : BatchTask) : Nat → Nat → List BatchTask
  | _, 0 => []
  | base, k + 1 =>
    { p with completed := base + 1 } :: progressStates p (base + 1) k

/-- The terminal status chosen by the email step (src/api.py, lines 310-317):
`completed` when `send_email_with_excel` returns, `email_failed` when it
raises. -/
def terminalStatus (send : Except String Unit) : TaskStatus :=
  match send with
  | .ok _ => .completed
  | .error _ => .email_failed

/-- The `task["message"]` written next to the terminal status. -/
def notifyMessage (email : String) (send : Except String Unit) : String :=
  match send with
  | .ok _ => "结果已发送到 " ++ email
  | .error e => "处理完成但邮件发送失败: " ++ e

/-- The task record just after the terminal status and message are written,
before the summary fields are (src/api.py, lines 310-317): by then every item
has incremented the counter. -/
def preFinalTask (t0 : BatchTask) (n : Nat) (send : Except String Unit) : BatchTask :=
  { t0 with
    status := terminalStatus send
    completed := t0.completed + n
    message := notifyMessage t0.email send }

/-- The task record after the final summary writes (src/api.py,
lines 319-323): `completed` is set to `len(results)` absolutely, and
`success_count`, `fail_count`, `duration` are recorded — on the
`email_failed` path as well as on the `completed` path. -/
def finalTask (t0 : BatchTask) (rs : List ItemResult)
    (send : Except String Unit) (d : Nat) : BatchTask :=
  { preFinalTask t0 rs.length send with
    completed := rs.length
    success_count := rs.countP (fun r => r.success)
    fail_count := rs.length - rs.countP (fun r => r.success)
    duration := some d }

/-- Every state the task record passes through during
`process_email_batch_task` (src/api.py, lines 233-323), in program order:
the record at entry, the `processing` write, one snapshot per item
completion, the terminal-status write, and the summary write.  `rs` is the
result collection, `send` the outcome of the email step, `d` the measured
duration. -/
def batchStates (t0 : BatchTask) (rs : List ItemResult)
    (send : Except String Unit) (d : Nat) : List BatchTask :=
  t0 :: { t0 with status := .processing } ::
    (progressStates { t0 with status := .processing } t0.completed rs.length ++
      [preFinalTask t0 rs.length send, finalTask t0 rs send d])

/-- What `asyncio.gather(*tasks_list)` hands back (src/api.py, lines 283-292):
one `process_single` result per submitted URL, the item at batch position `i`
carrying index `i`.  `worlds i` is the external-world behaviour item `i`
observes. -/
def gatherResults (worlds : Nat → ItemWorld) (limit : Nat)
    (image_urls : List String) : List ItemResult :=
  image_urls.enum.map (fun p => process_single (worlds p.1) limit 2 p.2 p.1)

/-- `results.sort(key=lambda x: x.get("index", 0))` (src/api.py, line 295):
a stable sort by the original submission index. -/
def sortByIndex (l : List ItemResult) : List ItemResult :=
  l.mergeSort (fun a b => decide (a.index ≤ b.index))

/-- The orchestrator `process_email_batch_task` (src/api.py, lines 233-323)
as the snapshot sequence of its task record: gather one result per URL, sort
by submission index, then run the report/notify tail. -/
def process_email_batch_task (t0 : BatchTask) (worlds : Nat → ItemWorld)
    (limit : Nat) (image_urls : List String) (send : Except String Unit)
    (d : Nat) : List BatchTask :=
  batchStates t0 (sortByIndex (gatherResults worlds limit image_urls)) send d

/-- Round-robin proxy assignment for item `i`
(`proxies[i % len(proxies)] if proxies else None`, src/api.py line 286). -/
def assignProxy (proxies : List ProxyInfo) (i : Nat) : Option ProxyInfo :=
  if h : proxies = [] then none
  else some (proxies.get ⟨i % proxies.length,
    Nat.mod_lt _ (List.length_pos.mpr h)⟩)

/-- The proxy handed to each of the `n` dispatched items, by batch index
(src/api.py, lines 283-287: the loop `for i, url in enumerate(image_urls)`). -/
def assignedProxies (proxies : List ProxyInfo) (n : Nat) : List (Option ProxyInfo) :=
  (List.range n).map (assignProxy proxies)

/-! ## Submission endpoint (src/api.py, `batch_search_with_email`) -/

/-- `EmailBatchRequest` (src/api.py). -/
structure EmailBatchRequest where
  image_urls : List String
  email : String
  limit : Nat
deriving DecidableEq, Repr

/-- An `HTTPException` raised by the endpoint. -/
structure HTTPError where
  status_code : Nat
  detail : String
deriving DecidableEq, Repr

/-- The fields of the endpoint's success response that the registry claims
talk about. -/
structure SubmitResponse where
  task_id : String
  status : TaskStatus
  total : Nat
  email : String
deriving DecidableEq, Repr

/-- The email check `not request.email or "@" not in request.email`
(src/api.py, line 414), as validity: the string is non-empty and contains the
at-sign (stated over the string's character list, which is what the Python
membership test inspects for a one-character needle). -/
def validEmail (email : String) : Bool :=
  !email.data.isEmpty && email.data.contains (Char.ofNat 64)

/-- `batch_search_with_email` (src/api.py, lines 400-445): the three
validation guards run before any store write; a valid request inserts a fresh
`pending` task under `tid` (the generated uuid) and answers with it.  The
result pairs the HTTP outcome with the (possibly updated) `tasks_store`. -/
def batch_search_with_email (store : List (String × BatchTask))
    (req : EmailBatchRequest) (tid created : String) :
    Except HTTPError SubmitResponse × List (String × BatchTask) :=
  if req.image_urls.length > 3000 then
    (.error ⟨400, "最多支持 3000 个 URL"⟩, store)
  else if req.image_urls.length = 0 then
    (.error ⟨400, "请提供至少 1 个 URL"⟩, store)
  else if !validEmail req.email then
    (.error ⟨400, "请提供有效的邮箱地址"⟩, store)
  else
    (.ok ⟨tid, .pending, req.image_urls.length, req.email⟩,
      (tid, mkBatchTask tid req.image_urls.length req.email created) :: store)

/-! ## Concrete sample values (used to instantiate theorems with hypotheses) -/

/-- A sample matched product. -/
def demoProduct : Product :=
  ⟨"运动鞋", "https://detail.1688.com/offer/1.html", "1"⟩

/-- A sample vendor record. -/
def demoRawA : RawProxy := ⟨"1.1.1.1", "1.1.1.1:8080", "上海", "电信", "2025-01-01"⟩

/-- A second sample vendor record. -/
def demoRawB : RawProxy := ⟨"2.2.2.2", "2.2.2.2:8080", "北京", "联通", "2025-01-01"⟩

/-- A sample proxy lease. -/
def demoProxyA : ProxyInfo := mkProxyInfo demoRawA

/-- A second sample proxy lease. -/
def demoProxyB : ProxyInfo := mkProxyInfo demoRawB

/-- A sample external-world behaviour where every step succeeds. -/
def demoWorld : ItemWorld :=
  ⟨.ok (), .ok ⟨"SUCCESS::调用成功", "img-1"⟩, fun _ => .ok [demoProduct]⟩

/-- Every item sees `demoWorld`. -/
def demoWorlds : Nat → ItemWorld := fun _ => demoWorld

/-- A sample vendor environment that always answers with one record. -/
def demoEnv : FetchEnv :=
  ⟨fun _ _ => .reply "SUCCESS" [demoRawA], fun _ => 100⟩

/-- An enabled pool at time 0. -/
def demoPool : PoolState := ⟨true, 0, none⟩

/-- A disabled pool at time 0. -/
def demoPoolDisabled : PoolState := ⟨false, 0, none⟩

/-! ## Theorems -/

/-- Helper: the event trace accumulated by `getProxiesLoop` adds no
`lockAcquire` events — the batch loop never touches `_proxy_fetch_lock`. -/
theorem getProxiesLoop_no_lock (env : FetchEnv) (requested maxRetries : Nat) :
    ∀ remaining attempt st now evs,
      ((getProxiesLoop env requested maxRetries attempt remaining st now evs).2.2).count
          PEvent.lockAcquire = evs.count PEvent.lockAcquire := by
  intro remaining
  induction remaining with
  | zero => intro attempt st now evs; rfl
  | succ r ih =>
    intro attempt st now evs
    simp only [getProxiesLoop]
    split
    · split
      · rw [ih]
        simp [List.count_append, List.count_cons,
          apply_ite (List.count PEvent.lockAcquire)]
      · simp [List.count_append, List.count_cons,
          apply_ite (List.count PEvent.lockAcquire)]
    · split
      · split
        · rw [ih]
          simp [List.count_append, List.count_cons,
            apply_ite (List.count PEvent.lockAcquire)]
        · simp [List.count_append, List.count_cons,
            apply_ite (List.count PEvent.lockAcquire)]
      · split
        · split
          · rw [ih]
            simp [List.count_append, List.count_cons,
              apply_ite (List.count PEvent.lockAcquire)]
          · simp [List.count_append, List.count_cons,
              apply_ite (List.count PEvent.lockAcquire)]
        · simp [List.count_append, List.count_cons,
            apply_ite (List.count PEvent.lockAcquire)]

/-- C2.  The spec (and the lock's own comment, src/lib/proxy.py line 21) says
every acquisition call — single or batch — runs inside the process-wide
critical section, so no two acquisition network calls can overlap.  The code
violates this: `ProxyPool.get_proxies` never acquires `_proxy_fetch_lock`, so
the schedule that lets thread 0 start its vendor call and then lets thread 1
start its own reaches a state with both batch network calls in flight at
once.  The remaining conjuncts pin down the cause: the lock/network skeleton
of `get_proxies` contains no lock acquisition (and its full embedding's event
trace never records one), while `get_proxy` does take the lock. -/
theorem get_proxies_bypasses_fetch_lock :
    overlapReached (initialTwo getProxiesActions getProxiesActions) [false, true] = true ∧
    getProxiesActions.count LockAction.lockAcquire = 0 ∧
    getProxyActions.count LockAction.lockAcquire = 1 ∧
    (∀ env st now num maxRetries,
      ((ProxyPool.get_proxies env st now num maxRetries).2.2).count
          PEvent.lockAcquire = 0) := by
  refine ⟨by decide, by decide, by decide, ?_⟩
  intro env st now num maxRetries
  rw [ProxyPool.get_proxies]
  split
  · rfl
  · split
    · rfl
    · exact getProxiesLoop_no_lock env (min num.toNat 50) maxRetries maxRetries 0 st now []

/-- C7.  When the pool's `enabled` flag is false, `get_proxy` returns `None`
and `get_proxies` returns `[]`, the pool state (including `_last_fetch_time`)
is untouched, and the empty event trace shows that no vendor call, no
rate-limit sleep, and no lock acquisition happens: the flag is checked before
the rate-limit/serialization logic (src/lib/proxy.py lines 88-93, 169-170). -/
theorem pool_disabled_returns_immediately (env : FetchEnv) (st : PoolState)
    (now : Nat) (force_new : Bool) (maxRetries : Nat) (num : Int)
    (h : st.enabled = false) :
    ProxyPool.get_proxy env st now force_new maxRetries = (none, st, []) ∧
    ProxyPool.get_proxies env st now num maxRetries = ([], st, []) := by
  constructor
  · rw [ProxyPool.get_proxy]; simp [h]
  · rw [ProxyPool.get_proxies]; simp [h]

/-- Witness for C7 at a concrete disabled pool. -/
theorem pool_disabled_returns_immediately_witness :
    ProxyPool.get_proxy demoEnv demoPoolDisabled 5000 false 3 =
        (none, demoPoolDisabled, []) ∧
    ProxyPool.get_proxies demoEnv demoPoolDisabled 5000 7 3 =
        ([], demoPoolDisabled, []) :=
  pool_disabled_returns_immediately demoEnv demoPoolDisabled 5000 false 3 7 (by decide)

/-- C10.  For every requested count `num ≤ 0`, `get_proxies` returns the
empty list immediately: the returned pool state is exactly the input state
(so `_last_fetch_time` is unchanged) and the event trace is empty (no vendor
network call) (src/lib/proxy.py lines 172-173). -/
theorem get_proxies_nonpositive_count (env : FetchEnv) (st : PoolState)
    (now : Nat) (num : Int) (maxRetries : Nat) (h : num ≤ 0) :
    ProxyPool.get_proxies env st now num maxRetries = ([], st, []) := by
  rw [ProxyPool.get_proxies]
  rcases hen : st.enabled <;> simp [hen, h]

/-- Witness for C10 at `num = -3` (and an enabled pool, so the result is not
forced by the disablement guard). -/
theorem get_proxies_nonpositive_count_witness :
    ProxyPool.get_proxies demoEnv demoPool 5000 (-3) 3 = ([], demoPool, []) :=
  get_proxies_nonpositive_count demoEnv demoPool 5000 (-3) 3 (by decide)

/-- C6.  Dispatch assigns a proxy to each of the `n` items: the assignment
list has length `n`, entry `i` is `assignProxy proxies i`, which is `none`
when no proxy was returned and lease `i % m` when `m > 0` proxies were
returned (src/api.py lines 283-287). -/
theorem round_robin_assignment (proxies : List ProxyInfo) (n : Nat) :
    (assignedProxies proxies n).length = n ∧
    (∀ i, i < n → (assignedProxies proxies n)[i]? = some (assignProxy proxies i)) ∧
    (proxies = [] → ∀ i, assignProxy proxies i = none) ∧
    (∀ h : proxies ≠ [], ∀ i, assignProxy proxies i =
        some (proxies.get ⟨i % proxies.length,
          Nat.mod_lt _ (List.length_pos.mpr h)⟩)) := by
  refine ⟨by simp [assignedProxies], ?_, ?_, ?_⟩
  · intro i hi
    simp [assignedProxies, List.getElem?_map, List.getElem?_range hi]
  · intro h i
    simp [assignProxy, h]
  · intro h i
    simp [assignProxy, h]

/-- Witness for C6: the spec's example — 5 items, 2 leases — yields the
round-robin pattern `[A, B, A, B, A]`, i.e. lease numbers `[0,1,0,1,0]`. -/
theorem round_robin_assignment_witness :
    (assignedProxies [demoProxyA, demoProxyB] 5).length = 5 ∧
    assignProxy [demoProxyA, demoProxyB] 0 = some demoProxyA ∧
    assignProxy [demoProxyA, demoProxyB] 1 = some demoProxyB ∧
    assignProxy [demoProxyA, demoProxyB] 2 = some demoProxyA ∧
    assignProxy [demoProxyA, demoProxyB] 3 = some demoProxyB ∧
    assignProxy [demoProxyA, demoProxyB] 4 = some demoProxyA := by
  have h := round_robin_assignment [demoProxyA, demoProxyB] 5
  refine ⟨h.1, ?_, ?_, ?_, ?_, ?_⟩ <;>
    simpa using h.2.2.2 (by decide) _

/-- C3.  `process_single` is a total function on every combination of
download / upload / lookup outcomes (exceptions included, modelled as the
`Except.error` branches of the oracles): it always returns a record carrying
the item's URL and original index, and any unsuccessful record carries an
error description (src/api.py lines 248-280, 86-113). -/
theorem process_single_well_formed (w : ItemWorld) (limit retry_count : Nat)
    (url : String) (index : Nat) :
    (process_single w limit retry_count url index).image_url = url ∧
    (process_single w limit retry_count url index).index = index ∧
    ((process_single w limit retry_count url index).success ||
      (process_single w limit retry_count url index).error.isSome) = true := by
  rcases hd : w.download with e | u
  · simp [process_single, hd]
  · rcases hu : w.upload with e | d
    · simp [process_single, search_products, hd, hu]
    · by_cases hret : d.ret = "SUCCESS::调用成功"
      · by_cases hid : d.imageId = ""
        · simp [process_single, search_products, hd, hu, hret, hid]
        · simp [process_single, search_products, hd, hu, hret, hid]
      · simp [process_single, search_products, hd, hu, hret]

/-- C5 counterexample.  The claim says that with a lookup retry bound of 1
and a fail-fail-succeed render sequence, processing returns a *failed*
ItemResult.  It does not: `fetch_product_links_async` swallows the raised
attempts and returns the initial empty `products` list, and `search_products`
then builds a response with `success=True` and `error=None`
(src/lib/ali1688/search.py lines 50-101; src/api.py lines 98-113). -/
theorem retry_bound_one_not_failed :
    (process_single
      ⟨.ok (), .ok ⟨"SUCCESS::调用成功", "img-1"⟩,
        fun k => if k ≤ 1 then .error "Timeout 60000ms exceeded"
          else .ok [demoProduct]⟩
      5 1 "http://img/a.jpg" 0).success = true ∧
    (process_single
      ⟨.ok (), .ok ⟨"SUCCESS::调用成功", "img-1"⟩,
        fun k => if k ≤ 1 then .error "Timeout 60000ms exceeded"
          else .ok [demoProduct]⟩
      5 1 "http://img/a.jpg" 0).error = none ∧
    (process_single
      ⟨.ok (), .ok ⟨"SUCCESS::调用成功", "img-1"⟩,
        fun k => if k ≤ 1 then .error "Timeout 60000ms exceeded"
          else .ok [demoProduct]⟩
      5 1 "http://img/a.jpg" 0).products = [] := by
  decide

/-- C5 (amended).  For a lookup that fails on its first two attempts and
succeeds on the third: with retry bound 2 the item is processed successfully
with the rendered products; with retry bound 1 both attempts fail and the
processor still returns an ItemResult marked successful, with an empty
product list and no error — the exhausted lookup is not surfaced as a failed
result. -/
theorem lookup_retry_bound (oracle : Nat → Except String (List Product))
    (ps : List Product) (limit : Nat) (url : String) (i : Nat)
    (up : UploadData) (e0 e1 : String)
    (h0 : oracle 0 = .error e0) (h1 : oracle 1 = .error e1)
    (h2 : oracle 2 = .ok ps)
    (hret : up.ret = "SUCCESS::调用成功") (hid : up.imageId ≠ "") :
    ((process_single ⟨.ok (), .ok up, oracle⟩ limit 2 url i).success = true ∧
      (process_single ⟨.ok (), .ok up, oracle⟩ limit 2 url i).products = ps.take limit) ∧
    ((process_single ⟨.ok (), .ok up, oracle⟩ limit 1 url i).success = true ∧
      (process_single ⟨.ok (), .ok up, oracle⟩ limit 1 url i).products = [] ∧
      (process_single ⟨.ok (), .ok up, oracle⟩ limit 1 url i).error = none) := by
  simp [process_single, search_products, fetch_product_links_async, fetchLoop,
    h0, h1, h2, hret, hid]

/-- Witness for the amended C5 at a concrete fail-fail-succeed oracle. -/
theorem lookup_retry_bound_witness :
    ((process_single
        ⟨.ok (), .ok ⟨"SUCCESS::调用成功", "img-1"⟩,
          fun k => if k ≤ 1 then .error "Timeout" else .ok [demoProduct]⟩
        5 2 "http://img/a.jpg" 0).success = true ∧
      (process_single
        ⟨.ok (), .ok ⟨"SUCCESS::调用成功", "img-1"⟩,
          fun k => if k ≤ 1 then .error "Timeout" else .ok [demoProduct]⟩
        5 2 "http://img/a.jpg" 0).products = [demoProduct].take 5) ∧
    ((process_single
        ⟨.ok (), .ok ⟨"SUCCESS::调用成功", "img-1"⟩,
          fun k => if k ≤ 1 then .error "Timeout" else .ok [demoProduct]⟩
        5 1 "http://img/a.jpg" 0).success = true ∧
      (process_single
        ⟨.ok (), .ok ⟨"SUCCESS::调用成功", "img-1"⟩,
          fun k => if k ≤ 1 then .error "Timeout" else .ok [demoProduct]⟩
        5 1 "http://img/a.jpg" 0).products = [] ∧
      (process_single
        ⟨.ok (), .ok ⟨"SUCCESS::调用成功", "img-1"⟩,
          fun k => if k ≤ 1 then .error "Timeout" else .ok [demoProduct]⟩
        5 1 "http://img/a.jpg" 0).error = none) :=
  lookup_retry_bound
    (fun k => if k ≤ 1 then .error "Timeout" else .ok [demoProduct])
    [demoProduct] 5 "http://img/a.jpg" 0 ⟨"SUCCESS::调用成功", "img-1"⟩
    "Timeout" "Timeout" rfl rfl rfl rfl (by decide)

/-- C9.  The three submission guards (batch larger than 3000, empty batch,
invalid email) fail synchronously and leave `tasks_store` untouched; a valid
submission returns the fresh task id whose store entry is `pending` with
`total` the batch size and `completed = 0`, and leaves every other store
entry unchanged (src/api.py lines 409-430). -/
theorem submit_validation (store : List (String × BatchTask))
    (req : EmailBatchRequest) (tid created : String) :
    ((req.image_urls.length > 3000 ∨ req.image_urls.length = 0 ∨
        validEmail req.email = false) →
      (∃ err, (batch_search_with_email store req tid created).1 = .error err) ∧
      (batch_search_with_email store req tid created).2 = store) ∧
    (req.image_urls.length ≤ 3000 → req.image_urls.length ≠ 0 →
      validEmail req.email = true →
      (batch_search_with_email store req tid created).1 =
        .ok ⟨tid, .pending, req.image_urls.length, req.email⟩ ∧
      (batch_search_with_email store req tid created).2 =
        (tid, mkBatchTask tid req.image_urls.length req.email created) :: store ∧
      ((batch_search_with_email store req tid created).2).lookup tid =
        some (mkBatchTask tid req.image_urls.length req.email created) ∧
      (mkBatchTask tid req.image_urls.length req.email created).status = .pending ∧
      (mkBatchTask tid req.image_urls.length req.email created).total =
        req.image_urls.length ∧
      (mkBatchTask tid req.image_urls.length req.email created).completed = 0 ∧
      (∀ tid2, tid2 ≠ tid →
        ((batch_search_with_email store req tid created).2).lookup tid2 =
          store.lookup tid2)) := by
  refine ⟨?_, ?_⟩
  · intro h
    rw [batch_search_with_email]
    split_ifs with hg1 hg2 hg3
    · exact ⟨⟨_, rfl⟩, rfl⟩
    · exact ⟨⟨_, rfl⟩, rfl⟩
    · exact ⟨⟨_, rfl⟩, rfl⟩
    · exfalso
      rcases h with h | h | h
      · exact hg1 h
      · exact hg2 h
      · simp [h] at hg3
  · intro hlen hne hval
    rw [batch_search_with_email]
    split_ifs with hg1 hg2
    · omega
    · simp [hval] at hg2
    · refine ⟨rfl, rfl, ?_, rfl, rfl, rfl, ?_⟩
      · simp [List.lookup]
      · intro tid2 hne2
        have hb : (tid2 == tid) = false := beq_eq_false_iff_ne.mpr hne2
        simp [List.lookup, hb]

/-- Witness for C9: an empty batch is rejected with the store unchanged; a
one-item batch with a valid address creates exactly the pending entry. -/
theorem submit_validation_witness :
    ((∃ err, (batch_search_with_email [] ⟨[], "a@b.c", 5⟩ "tid-1" "t0").1 =
        .error err) ∧
      (batch_search_with_email [] ⟨[], "a@b.c", 5⟩ "tid-1" "t0").2 = []) ∧
    ((batch_search_with_email [] ⟨["http://img/1.jpg"], "a@b.c", 5⟩
        "tid-1" "t0").1 = .ok ⟨"tid-1", .pending, 1, "a@b.c"⟩ ∧
      ((batch_search_with_email [] ⟨["http://img/1.jpg"], "a@b.c", 5⟩
          "tid-1" "t0").2).lookup "tid-1" =
        some (mkBatchTask "tid-1" 1 "a@b.c" "t0")) := by
  have h1 := submit_validation [] ⟨[], "a@b.c", 5⟩ "tid-1" "t0"
  have h2 := submit_validation [] ⟨["http://img/1.jpg"], "a@b.c", 5⟩ "tid-1" "t0"
  have h3 := h2.2 (by decide) (by decide) (by decide)
  exact ⟨h1.1 (Or.inr (Or.inl rfl)), h3.1, h3.2.2.1⟩

/-- Helper: `process_single` always stamps the item's original index. -/
theorem process_single_index (w : ItemWorld) (limit rc : Nat) (url : String)
    (i : Nat) : (process_single w limit rc url i).index = i := by
  rcases hd : w.download with e | u <;> simp [process_single, hd]

/-- Helper: the gathered collection carries the indexes `0, ..., n-1` in
submission order. -/
theorem gather_map_index (worlds : Nat → ItemWorld) (limit : Nat)
    (urls : List String) :
    (gatherResults worlds limit urls).map (fun r => r.index) =
      List.range urls.length := by
  rw [gatherResults, List.map_map]
  have h : ((fun r : ItemResult => r.index) ∘ fun p : Nat × String =>
      process_single (worlds p.1) limit 2 p.2 p.1) = Prod.fst := by
    funext p
    simp [process_single_index]
  rw [h, List.enum_map_fst]

/-- Helper: gathering produces one result per submitted URL. -/
theorem gatherResults_length (worlds : Nat → ItemWorld) (limit : Nat)
    (urls : List String) :
    (gatherResults worlds limit urls).length = urls.length := by
  simp [gatherResults]

/-- C1.  Whatever order the items complete in — modelled by letting the
collection reach the sorting step as an arbitrary permutation `l2` of the
gathered per-item results — the sorted collection handed to Excel generation
has exactly one entry per submitted item, its index column is exactly
`0, ..., n-1`, and the entry at position `i` carries original index `i`
(src/api.py lines 283-295). -/
theorem ordered_results (worlds : Nat → ItemWorld) (limit : Nat)
    (urls : List String) (l2 : List ItemResult)
    (hp : l2.Perm (gatherResults worlds limit urls)) :
    (sortByIndex l2).length = urls.length ∧
    (sortByIndex l2).map (fun r => r.index) = List.range urls.length ∧
    (∀ i (h : i < (sortByIndex l2).length), (sortByIndex l2)[i].index = i) := by
  have hsp : (sortByIndex l2).Perm l2 :=
    List.mergeSort_perm l2 (fun a b => decide (a.index ≤ b.index))
  have hpg : (sortByIndex l2).Perm (gatherResults worlds limit urls) :=
    hsp.trans hp
  have hlen : (sortByIndex l2).length = urls.length := by
    rw [hpg.length_eq, gatherResults_length]
  have hmap : (sortByIndex l2).map (fun r => r.index) =
      List.range urls.length := by
    have hsorted : List.Pairwise (fun a b : ItemResult => a.index ≤ b.index)
        (sortByIndex l2) := by
      have h := @List.sorted_mergeSort ItemResult
        (fun a b : ItemResult => decide (a.index ≤ b.index))
        (fun a b c hab hbc => by
          simp only [decide_eq_true_eq] at hab hbc ⊢
          omega)
        (fun a b => by simpa using Nat.le_total a.index b.index)
        l2
      exact h.imp (fun hab => by simpa using hab)
    have hmono : List.Sorted (fun a b : Nat => a ≤ b)
        ((sortByIndex l2).map (fun r => r.index)) :=
      List.pairwise_map.mpr hsorted
    have hpm : ((sortByIndex l2).map (fun r => r.index)).Perm
        (List.range urls.length) := by
      rw [← gather_map_index worlds limit urls]
      exact hpg.map _
    exact List.eq_of_perm_of_sorted hpm hmono (List.sorted_le_range urls.length)
  refine ⟨hlen, hmap, ?_⟩
  intro i h
  have h3 : i < urls.length := by rw [← hlen]; exact h
  have e3 : ((sortByIndex l2).map (fun r => r.index))[i]? = some i := by
    rw [hmap]
    exact List.getElem?_range h3
  rw [List.getElem?_map, List.getElem?_eq_getElem h] at e3
  simpa using e3

/-- Witness for C1: three items whose results reach the sort in reversed
completion order still come out as indexes `[0, 1, 2]`. -/
theorem ordered_results_witness :
    (sortByIndex ((gatherResults demoWorlds 5 ["u1", "u2", "u3"]).reverse)).length = 3 ∧
    (sortByIndex ((gatherResults demoWorlds 5 ["u1", "u2", "u3"]).reverse)).map
        (fun r => r.index) = List.range 3 :=
  ⟨(ordered_results demoWorlds 5 ["u1", "u2", "u3"]
      ((gatherResults demoWorlds 5 ["u1", "u2", "u3"]).reverse)
      (List.reverse_perm (gatherResults demoWorlds 5 ["u1", "u2", "u3"]))).1,
   (ordered_results demoWorlds 5 ["u1", "u2", "u3"]
      ((gatherResults demoWorlds 5 ["u1", "u2", "u3"]).reverse)
      (List.reverse_perm (gatherResults demoWorlds 5 ["u1", "u2", "u3"]))).2.1⟩

/-- Helper: the terminal status has lifecycle rank 2 whichever way the email
step went. -/
theorem terminalStatus_rank (send : Except String Unit) :
    (terminalStatus send).rank = 2 := by
  cases send <;> rfl

/-- Helper: completed counters recorded along the item-progress snapshots. -/
theorem progressStates_map_completed (p : BatchTask) :
    ∀ k base, (progressStates p base k).map (fun t => t.completed) =
      List.range' (base + 1) k := by
  intro k
  induction k with
  | zero => intro base; rfl
  | succ n ih =>
    intro base
    simp [progressStates, ih (base + 1), List.range']

/-- Helper: statuses along the item-progress snapshots. -/
theorem progressStates_map_status (p : BatchTask) :
    ∀ k base, (progressStates p base k).map (fun t => t.status) =
      List.replicate k p.status := by
  intro k
  induction k with
  | zero => intro base; rfl
  | succ n ih =>
    intro base
    simp [progressStates, ih (base + 1), List.replicate]

/-- Helper: any snapshot taken mid-progress keeps the record's status and
total, and its counter is bounded by `base + k`. -/
theorem mem_progressStates (p : BatchTask) :
    ∀ k base s, s ∈ progressStates p base k →
      s.status = p.status ∧ s.total = p.total ∧ s.completed ≤ base + k := by
  intro k
  induction k with
  | zero => intro base s hs; simp [progressStates] at hs
  | succ n ih =>
    intro base s hs
    rcases List.mem_cons.mp hs with rfl | hs
    · refine ⟨rfl, rfl, ?_⟩
      show base + 1 ≤ base + (n + 1)
      omega
    · obtain ⟨h1, h2, h3⟩ := ih (base + 1) s hs
      exact ⟨h1, h2, by omega⟩

/-- Helper: the status ranks along a full batch run form the explicit list
`0, 1, 1, ..., 1, 2, 2`. -/
theorem batchStates_map_rank (tid : String) (total : Nat)
    (email created : String) (rs : List ItemResult)
    (send : Except String Unit) (d : Nat) :
    (batchStates (mkBatchTask tid total email created) rs send d).map
        (fun t => t.status.rank) =
      0 :: 1 :: (List.replicate rs.length 1 ++ [2, 2]) := by
  simp only [batchStates, List.map_cons, List.map_append]
  have hcomp : (fun t : BatchTask => t.status.rank) =
      (fun s : TaskStatus => s.rank) ∘ (fun t : BatchTask => t.status) := rfl
  rw [hcomp, ← List.map_map, progressStates_map_status]
  cases send <;>
    simp [List.map_replicate, mkBatchTask, preFinalTask, finalTask,
      TaskStatus.rank, terminalStatus]

/-- Helper: the completed counters along a full batch run form the explicit
list `0, 0, 1, ..., n, n, n`. -/
theorem batchStates_map_completed (tid : String) (total : Nat)
    (email created : String) (rs : List ItemResult)
    (send : Except String Unit) (d : Nat) :
    (batchStates (mkBatchTask tid total email created) rs send d).map
        (fun t => t.completed) =
      0 :: 0 :: (List.range' 1 rs.length ++ [rs.length, rs.length]) := by
  simp only [batchStates, List.map_cons, List.map_append]
  rw [progressStates_map_completed]
  simp [mkBatchTask, preFinalTask, finalTask]

/-- Helper: `0, 1, 1, ..., 1, 2, 2` is non-decreasing. -/
theorem chain_rank_list (n : Nat) :
    List.Chain' (fun a b : Nat => a ≤ b)
      (0 :: 1 :: (List.replicate n 1 ++ [2, 2])) := by
  apply List.Pairwise.chain'
  refine List.pairwise_cons.mpr ⟨fun b _ => Nat.zero_le b, ?_⟩
  refine List.pairwise_cons.mpr ⟨?_, ?_⟩
  · intro b hb
    rcases List.mem_append.mp hb with h | h
    · rcases List.mem_replicate.mp h with ⟨-, rfl⟩
      exact le_refl 1
    · simp at h
      rcases h with rfl | rfl <;> omega
  · refine List.pairwise_append.mpr ⟨?_, ?_, ?_⟩
    · exact List.pairwise_replicate.mpr (Or.inr (le_refl 1))
    · exact List.pairwise_cons.mpr
        ⟨fun b hb => by simp at hb; omega, List.pairwise_singleton _ _⟩
    · intro a ha b hb
      rcases List.mem_replicate.mp ha with ⟨-, rfl⟩
      simp at hb
      rcases hb with rfl | rfl <;> omega

/-- Helper: `0, 0, 1, ..., n, n, n` is non-decreasing. -/
theorem chain_completed_list (n : Nat) :
    List.Chain' (fun a b : Nat => a ≤ b)
      (0 :: 0 :: (List.range' 1 n ++ [n, n])) := by
  apply List.Pairwise.chain'
  refine List.pairwise_cons.mpr ⟨fun b _ => Nat.zero_le b, ?_⟩
  refine List.pairwise_cons.mpr ⟨fun b _ => Nat.zero_le b, ?_⟩
  refine List.pairwise_append.mpr ⟨?_, ?_, ?_⟩
  · exact (List.pairwise_lt_range' 1 n).imp (fun h => Nat.le_of_lt h)
  · exact List.pairwise_cons.mpr
      ⟨fun b hb => by simp at hb; omega, List.pairwise_singleton _ _⟩
  · intro a ha b hb
    rcases List.mem_range'.mp ha with ⟨i, hi, rfl⟩
    simp at hb
    rcases hb with rfl | rfl <;> omega

/-- C4.  Along every batch run, statuses only move forward along
`pending → processing → terminal` (ranks never decrease); any snapshot
carrying a terminal status already has all `rs.length` items counted and its
terminal value is the one chosen by the outcome of the email step; the last
snapshot is the final summary write; a successful email step ends in
`completed`, a failed one ends in `email_failed` with the descriptive
message while `completed`, `success_count`, `fail_count` and `duration` are
still recorded (src/api.py lines 233-323, 419-430). -/
theorem status_machine (tid : String) (total : Nat) (email created : String)
    (rs : List ItemResult) (send : Except String Unit) (d : Nat) :
    List.Chain' (fun a b : BatchTask => a.status.rank ≤ b.status.rank)
      (batchStates (mkBatchTask tid total email created) rs send d) ∧
    (∀ s ∈ batchStates (mkBatchTask tid total email created) rs send d,
      s.status.isTerminal = true →
        s.completed = rs.length ∧ s.status = terminalStatus send) ∧
    (batchStates (mkBatchTask tid total email created) rs send d).getLast? =
      some (finalTask (mkBatchTask tid total email created) rs send d) ∧
    (∀ u, send = Except.ok u →
      (finalTask (mkBatchTask tid total email created) rs send d).status =
        .completed) ∧
    (∀ e, send = Except.error e →
      terminalStatus send = .email_failed ∧
      (finalTask (mkBatchTask tid total email created) rs send d).status =
        .email_failed ∧
      (finalTask (mkBatchTask tid total email created) rs send d).message =
        "处理完成但邮件发送失败: " ++ e ∧
      (finalTask (mkBatchTask tid total email created) rs send d).completed =
        rs.length ∧
      (finalTask (mkBatchTask tid total email created) rs send d).success_count =
        rs.countP (fun r => r.success) ∧
      (finalTask (mkBatchTask tid total email created) rs send d).fail_count =
        rs.length - rs.countP (fun r => r.success) ∧
      (finalTask (mkBatchTask tid total email created) rs send d).duration =
        some d) := by
  refine ⟨?_, ?_, ?_, ?_, ?_⟩
  · exact (List.chain'_map (fun t : BatchTask => t.status.rank)).mp
      (by rw [batchStates_map_rank]; exact chain_rank_list rs.length)
  · intro s hs hterm
    rw [batchStates] at hs
    rcases List.mem_cons.mp hs with rfl | hs
    · simp [mkBatchTask, TaskStatus.isTerminal] at hterm
    · rcases List.mem_cons.mp hs with rfl | hs
      · simp [TaskStatus.isTerminal] at hterm
      · rcases List.mem_append.mp hs with hs | hs
        · obtain ⟨h1, -, -⟩ := mem_progressStates _ _ _ s hs
          rw [h1] at hterm
          simp [TaskStatus.isTerminal] at hterm
        · rcases List.mem_cons.mp hs with rfl | hs
          · exact ⟨by simp [preFinalTask, mkBatchTask], rfl⟩
          · rcases List.mem_cons.mp hs with rfl | hs
            · exact ⟨rfl, rfl⟩
            · simp at hs
  · rw [batchStates]
    rw [show [preFinalTask (mkBatchTask tid total email created) rs.length send,
          finalTask (mkBatchTask tid total email created) rs send d] =
        [preFinalTask (mkBatchTask tid total email created) rs.length send] ++
          [finalTask (mkBatchTask tid total email created) rs send d] from rfl]
    rw [← List.append_assoc, ← List.cons_append, ← List.cons_append,
      List.getLast?_concat]
  · intro u hu
    subst hu
    rfl
  · intro e he
    subst he
    exact ⟨rfl, rfl, rfl, rfl, rfl, rfl, rfl⟩

/-- Witness for C4 at a concrete failing email step. -/
theorem status_machine_witness :
    (batchStates (mkBatchTask "t" 2 "a@b" "now") [] (.error "SMTP down") 7).getLast? =
      some (finalTask (mkBatchTask "t" 2 "a@b" "now") [] (.error "SMTP down") 7) ∧
    terminalStatus (Except.error (α := Unit) "SMTP down") = .email_failed ∧
    (finalTask (mkBatchTask "t" 2 "a@b" "now") [] (.error "SMTP down") 7).status =
      .email_failed ∧
    (finalTask (mkBatchTask "t" 2 "a@b" "now") [] (.error "SMTP down") 7).message =
      "处理完成但邮件发送失败: " ++ "SMTP down" ∧
    (finalTask (mkBatchTask "t" 2 "a@b" "now") [] (.error "SMTP down") 7).duration =
      some 7 ∧
    (finalTask (mkBatchTask "t" 2 "a@b" "now") [] (.error "SMTP down") 7).completed = 0 := by
  have h := status_machine "t" 2 "a@b" "now" [] (.error "SMTP down") 7
  have h5 := h.2.2.2.2 "SMTP down" rfl
  have hmem := h.2.1
    (finalTask (mkBatchTask "t" 2 "a@b" "now") [] (.error "SMTP down") 7)
    (by decide) (by decide)
  exact ⟨h.2.2.1, h5.1, h5.2.1, h5.2.2.1, h5.2.2.2.2.2.2, hmem.1⟩

/-- C8.  Over a full orchestrator run on `n` submitted URLs, the task record
starts with `completed = 0` at creation, the counter never decreases from
one snapshot to the next, at every snapshot it is bounded by `total = n`,
and every snapshot carrying a terminal status has `completed = total`
(src/api.py lines 275-277, 283-323). -/
theorem completed_counter_invariant (tid email created : String)
    (worlds : Nat → ItemWorld) (limit : Nat) (urls : List String)
    (send : Except String Unit) (d : Nat) :
    (process_email_batch_task (mkBatchTask tid urls.length email created)
        worlds limit urls send d).head? =
      some (mkBatchTask tid urls.length email created) ∧
    (mkBatchTask tid urls.length email created).completed = 0 ∧
    List.Chain' (fun a b : BatchTask => a.completed ≤ b.completed)
      (process_email_batch_task (mkBatchTask tid urls.length email created)
        worlds limit urls send d) ∧
    (∀ s ∈ process_email_batch_task (mkBatchTask tid urls.length email created)
        worlds limit urls send d, s.completed ≤ s.total) ∧
    (∀ s ∈ process_email_batch_task (mkBatchTask tid urls.length email created)
        worlds limit urls send d,
      s.status.isTerminal = true → s.completed = s.total) := by
  have hrs : (sortByIndex (gatherResults worlds limit urls)).length =
      urls.length := by
    rw [sortByIndex, (List.mergeSort_perm (gatherResults worlds limit urls)
      (fun a b => decide (a.index ≤ b.index))).length_eq]
    exact gatherResults_length worlds limit urls
  refine ⟨rfl, rfl, ?_, ?_, ?_⟩
  · refine (List.chain'_map (fun t : BatchTask => t.completed)).mp ?_
    rw [process_email_batch_task, batchStates_map_completed, hrs]
    exact chain_completed_list urls.length
  · intro s hs
    rw [process_email_batch_task, batchStates] at hs
    rcases List.mem_cons.mp hs with rfl | hs
    · exact Nat.zero_le _
    · rcases List.mem_cons.mp hs with rfl | hs
      · exact Nat.zero_le _
      · rcases List.mem_append.mp hs with hs | hs
        · obtain ⟨-, h2, h3⟩ := mem_progressStates _ _ _ s hs
          rw [h2]
          simp only [mkBatchTask] at h3 ⊢
          omega
        · rcases List.mem_cons.mp hs with rfl | hs
          · simp [preFinalTask, mkBatchTask, hrs]
          · rcases List.mem_cons.mp hs with rfl | hs
            · simp [finalTask, preFinalTask, mkBatchTask, hrs]
            · simp at hs
  · intro s hs hterm
    rw [process_email_batch_task, batchStates] at hs
    rcases List.mem_cons.mp hs with rfl | hs
    · simp [mkBatchTask, TaskStatus.isTerminal] at hterm
    · rcases List.mem_cons.mp hs with rfl | hs
      · simp [TaskStatus.isTerminal] at hterm
      · rcases List.mem_append.mp hs with hs | hs
        · obtain ⟨h1, -, -⟩ := mem_progressStates _ _ _ s hs
          rw [h1] at hterm
          simp [TaskStatus.isTerminal] at hterm
        · rcases List.mem_cons.mp hs with rfl | hs
          · simp [preFinalTask, mkBatchTask, hrs]
          · rcases List.mem_cons.mp hs with rfl | hs
            · simp [finalTask, preFinalTask, mkBatchTask, hrs]
            · simp at hs

/-- Witness for C8: a concrete two-item batch whose final snapshot is a
member of the run, is terminal, and has `completed = total`. -/
theorem completed_counter_invariant_witness :
    (process_email_batch_task (mkBatchTask "t" 2 "a@b" "now") demoWorlds 5
        ["u1", "u2"] (.ok ()) 3).head? = some (mkBatchTask "t" 2 "a@b" "now") ∧
    (finalTask (mkBatchTask "t" 2 "a@b" "now")
        (sortByIndex (gatherResults demoWorlds 5 ["u1", "u2"])) (.ok ()) 3).completed =
      (finalTask (mkBatchTask "t" 2 "a@b" "now")
        (sortByIndex (gatherResults demoWorlds 5 ["u1", "u2"])) (.ok ()) 3).total := by
  have h := completed_counter_invariant "t" "a@b" "now" demoWorlds 5
    ["u1", "u2"] (.ok ()) 3
  exact ⟨h.1, h.2.2.2.2
    (finalTask (mkBatchTask "t" 2 "a@b" "now")
      (sortByIndex (gatherResults demoWorlds 5 ["u1", "u2"])) (.ok ()) 3)
    (by rw [process_email_batch_task, batchStates]; simp) rfl⟩

end Ali1688
